import Mathlib

/-!
Verification of the iChef repository (src/app.py and src/main.py): a thin
client that builds a recipe prompt from an ingredient list and a preference
string, sends it to an LLM provider, and returns the response text or a
marker-prefixed error string.  The web surface (app.py) additionally keeps
session state deciding when an uploaded image triggers a recognition call.

Strings are modelled as lists of characters (`Str`), so that Python string
operations (split on comma, strip, substring test, concatenation by
f-string interpolation) become ordinary list functions.  The outbound LLM
call is modelled as an oracle parameter of type `Str → Except Str Str`
(prompt to response text, or the raised error's text); every embedded
function that may issue a call also returns the list of prompts it actually
sent on the network, so "makes no outbound call" is the statement that this
list is empty.  The `@st.cache_data` memoization on the web surface is not
modelled: it only deduplicates identical calls and is irrelevant to every
property below.
-/

/-- Python strings, modelled as lists of characters. -/
abbrev Str := List Char

/-- Converts a Lean string literal to the `Str` model. -/
def strLit (s : String) : Str := s.data

/-- Python default whitespace for `str.strip()` (the ASCII part: space, tab,
newline, carriage return, vertical tab, form feed). -/
def pyIsSpace (c : Char) : Bool :=
  c == ' ' || c == '\t' || c == '\n' || c == '\r' || c == '\x0b' || c == '\x0c'

/-- Python `s.strip()`: drop whitespace from both ends. -/
def pyStrip (s : Str) : Str :=
  ((s.dropWhile pyIsSpace).reverse.dropWhile pyIsSpace).reverse

/-- Python `s.split(',')`: split on every comma, keeping empty pieces. -/
def splitComma : Str → List Str
  | [] => [[]]
  | c :: cs =>
    if c == ',' then [] :: splitComma cs
    else
      match splitComma cs with
      | [] => [[c]]
      | p :: ps => (c :: p) :: ps

/-- Python `pat in s`? We first need `startsWithStr s pat`: `pat` is a prefix
of `s`. -/
def startsWithStr : Str → Str → Bool
  | _, [] => true
  | [], _ :: _ => false
  | c :: s, p :: ps => c == p && startsWithStr s ps

/-- Python `pat in s`: `pat` occurs as a contiguous substring of `s`. -/
def containsStr (s pat : Str) : Bool :=
  match s with
  | [] => startsWithStr [] pat
  | _ :: rest => startsWithStr s pat || containsStr rest pat

/-- Python `", ".join(l)`. -/
def joinCommaSpace (l : List Str) : Str :=
  (l.intersperse (strLit ", ")).flatten

/-- The ingredient parsing both surfaces perform:
`[i.strip() for i in ingredients_text.split(',') if i.strip()]`. -/
def parseIngredients (ingredients_text : Str) : List Str :=
  ((splitComma ingredients_text).map pyStrip).filter (fun i => !i.isEmpty)

/-- The failure marker both surfaces prepend to caught call errors. -/
def markerStr : Str := strLit "❌"

namespace App

/-- Template text of app.py's `create_recipe_prompt` before `{ingredients_str}`. -/
def promptPre : Str := strLit "\n    您是一位專業的食譜設計師和營養師。\n    \n    請根據我提供的現有食材清單：**【"

/-- Template text of app.py's `create_recipe_prompt` between `{ingredients_str}` and `{preference}`. -/
def promptMid : Str := strLit "】**，以及我的飲食偏好：**【"

/-- Template text of app.py's `create_recipe_prompt` after `{preference}`. -/
def promptPost : Str := strLit "】**，為我設計一個完整的食譜。\n\n    請使用 Markdown 格式，輸出一個清晰、結構化的食譜，包含以下欄位：\n    # 食譜名稱 (創意且吸引人)\n    \n    ## 客製化調整說明\n    (說明你如何根據我的偏好和現有食材調整了食譜內容)\n    \n    ## 所需食材清單\n    (請列出所有需要的食材，包含調味料，並標明用量)\n    \n    ## 營養速覽\n    (估計的卡路里、蛋白質、脂肪、碳水化合物含量)\n    \n    ## 詳細烹飪步驟\n    (分點列出，清晰易懂)\n    \n    請確保食譜內容健康且易於執行。\n    "

/-- app.py `create_recipe_prompt`: joins the ingredients with `", "` and
interpolates them and the preference into the fixed template. -/
def create_recipe_prompt (ingredients : List Str) (preference : Str) : Str :=
  let ingredients_str := joinCommaSpace ingredients
  promptPre ++ ingredients_str ++ promptMid ++ preference ++ promptPost

/-- app.py's fixed refusal message for empty ingredient input. -/
def emptyInputMsg : Str := strLit "🚨 你不乖!沒輸入!吃空氣去吧！"

/-- app.py's error-string template for a failed generation call (before the
raised error's text). -/
def genErrorPre : Str := strLit "❌ 呼叫 AI 失敗。錯誤："

/-- app.py `generate_recipe_from_ai`, with the outbound `generate_content`
call abstracted as `call`.  Returns the user-visible string together with
the list of prompts actually sent on the network. -/
def generate_recipe_from_ai (call : Str → Except Str Str)
    (ingredients_text preference_text : Str) : Str × List Str :=
  let ingredients := parseIngredients ingredients_text
  if ingredients.isEmpty then (emptyInputMsg, [])
  else
    let final_prompt := create_recipe_prompt ingredients preference_text
    match call final_prompt with
    | Except.ok t => (t, [final_prompt])
    | Except.error e => (genErrorPre ++ e, [final_prompt])

/-- The fixed phrase whose presence in a trimmed vision response makes
app.py treat it as "nothing recognized". -/
def cannotIdentify : Str := strLit "無法辨識"

/-- app.py's error-string template for a failed recognition call. -/
def recogErrorPre : Str := strLit "❌ 圖片辨識失敗：請檢查 API 權限或圖片格式。詳細錯誤："

/-- app.py `generate_ingredients_from_image`, with the outbound vision call
(on the fixed instruction prompt and the image) abstracted to its outcome
`call`: the response text, or the raised error's text. -/
def generate_ingredients_from_image (call : Except Str Str) : Str :=
  match call with
  | Except.ok t =>
    let ingredients_text := pyStrip t
    if ingredients_text.isEmpty || containsStr ingredients_text cannotIdentify then []
    else ingredients_text
  | Except.error e => recogErrorPre ++ e

/-- The web session state: the three `st.session_state` variables app.py
initializes (`ingredients_text`, `recipe_output`, `last_upload_name`). -/
structure SessionState where
  ingredients_text : Str
  recipe_output : Str
  last_upload_name : Option Str
  deriving DecidableEq, Repr

/-- The session state at the start of a web session. -/
def initialState : SessionState :=
  { ingredients_text := [], recipe_output := [], last_upload_name := none }

/-- The inner result handling of app.py's upload branch: how a recognition
result string updates the session state. -/
def apply_recog_result (r : Str) (s : SessionState) : SessionState :=
  if !r.isEmpty && !startsWithStr r markerStr then
    { s with ingredients_text := r }
  else if startsWithStr r markerStr then s
  else { s with ingredients_text := [] }

/-- app.py's upload handling (`main_app`, the `uploaded_file is not None`
branch): if the file name equals `last_upload_name`, only redisplay; else
record the name first, run recognition, and apply the result.  The second
component counts the recognition calls issued (0 or 1). -/
def handle_upload (recog : Except Str Str) (name : Str) (s : SessionState) :
    SessionState × Nat :=
  if s.last_upload_name ≠ some name then
    let s1 := { s with last_upload_name := some name }
    (apply_recog_result (generate_ingredients_from_image recog) s1, 1)
  else (s, 0)

/-- app.py's generate-button handling (`main_app`): warn and change nothing
on empty current ingredients, else call `generate_recipe_from_ai` and store
the result in `recipe_output`. -/
def handle_generate (call : Str → Except Str Str) (preference : Str)
    (s : SessionState) : SessionState :=
  let current_ingredients := s.ingredients_text
  if current_ingredients.isEmpty then s
  else
    { s with recipe_output :=
        (generate_recipe_from_ai call current_ingredients preference).1 }

end App

namespace Cli

/-- Template text of main.py's `create_recipe_prompt` before `{ingredients_str}`. -/
def promptPre : Str := strLit "\n    你是一位專業的食譜設計師和營養師。\n    \n    請根據我提供的現有食材清單：【"

/-- Template text of main.py's `create_recipe_prompt` between `{ingredients_str}` and `{preference}`. -/
def promptMid : Str := strLit "】，以及我的飲食偏好：【"

/-- Template text of main.py's `create_recipe_prompt` after `{preference}`. -/
def promptPost : Str := strLit "】，為我設計一個完整的食譜。\n\n    請輸出一個清晰、結構化的食譜，包含以下欄位：\n    1. 食譜名稱 (創意且吸引人)\n    2. 客製化調整說明 (說明你如何根據我的偏好調整了食譜)\n    3. 所需食材清單 (請列出所有需要的食材，包含調味料，並標明用量)\n    4. 營養速覽 (估計的卡路里、蛋白質、脂肪、碳水化合物含量)\n    5. 詳細烹飪步驟 (分點列出，清晰易懂)\n    \n    請確保食譜內容健康且易於執行。\n    "

/-- main.py `create_recipe_prompt`. -/
def create_recipe_prompt (ingredients : List Str) (preference : Str) : Str :=
  let ingredients_str := joinCommaSpace ingredients
  promptPre ++ ingredients_str ++ promptMid ++ preference ++ promptPost

/-- main.py's fixed refusal message for empty ingredient input. -/
def emptyInputMsg : Str := strLit "🚨 請輸入至少一項食材！"

/-- main.py's error-string template for a failed generation call (note the
leading newline before the marker). -/
def genErrorPre : Str := strLit "\n❌ 呼叫 AI 失敗。請檢查您的 API Key 或網路連線。錯誤："

/-- main.py `generate_recipe_from_ai`, with the outbound call abstracted as
`call`; second component is the list of prompts sent on the network. -/
def generate_recipe_from_ai (call : Str → Except Str Str)
    (ingredients_text preference_text : Str) : Str × List Str :=
  let ingredients := parseIngredients ingredients_text
  if ingredients.isEmpty then (emptyInputMsg, [])
  else
    let final_prompt := create_recipe_prompt ingredients preference_text
    match call final_prompt with
    | Except.ok t => (t, [final_prompt])
    | Except.error e => (genErrorPre ++ e, [final_prompt])

end Cli

example : parseIngredients (strLit "") = [] := by decide
example : parseIngredients (strLit ",, ,") = [] := by decide
example : parseIngredients (strLit " egg , tomato ,") = [strLit "egg", strLit "tomato"] := by decide
example : parseIngredients (strLit "egg,tomato") = [strLit "egg", strLit "tomato"] := by decide
example : joinCommaSpace [strLit "egg", strLit "tomato"] = strLit "egg, tomato" := by decide
example : pyStrip (strLit "  ") = [] := by decide
example : App.generate_ingredients_from_image (Except.ok (strLit "  ")) = [] := by decide
example : App.generate_ingredients_from_image (Except.ok (strLit " 無法辨識圖片 ")) = [] := by decide
example : App.generate_ingredients_from_image (Except.ok (strLit " 雞蛋, 番茄 ")) = strLit "雞蛋, 番茄" := by decide

/-! ### Helper lemmas about the string primitives -/

theorem startsWithStr_nil_pat (s : Str) : startsWithStr s [] = true := by
  cases s <;> rfl

theorem startsWithStr_append (p b : Str) : startsWithStr (p ++ b) p = true := by
  induction p with
  | nil => exact startsWithStr_nil_pat b
  | cons c ps ih => simp [startsWithStr, ih]

theorem startsWithStr_exists (s p : Str) (h : startsWithStr s p = true) :
    ∃ b, s = p ++ b := by
  induction p generalizing s with
  | nil => exact ⟨s, rfl⟩
  | cons c ps ih =>
    cases s with
    | nil => simp [startsWithStr] at h
    | cons x xs =>
      simp only [startsWithStr, Bool.and_eq_true, beq_iff_eq] at h
      obtain ⟨hx, hs⟩ := h
      obtain ⟨b, hb⟩ := ih xs hs
      exact ⟨b, by simp [hx, hb]⟩

theorem startsWithStr_mono (t u pat : Str) (h : startsWithStr t pat = true) :
    startsWithStr (t ++ u) pat = true := by
  obtain ⟨b, rfl⟩ := startsWithStr_exists t pat h
  rw [List.append_assoc]
  exact startsWithStr_append _ _

theorem containsStr_split (a p b : Str) : containsStr (a ++ (p ++ b)) p = true := by
  induction a with
  | nil =>
    cases p with
    | nil => cases b <;> simp [containsStr, startsWithStr_nil_pat]
    | cons c ps =>
      have : startsWithStr ((c :: ps) ++ b) (c :: ps) = true := startsWithStr_append _ _
      simp only [List.nil_append, List.cons_append, containsStr]
      simp only [List.cons_append] at this
      simp [this]
  | cons x xs ih => simp [containsStr, ih]

theorem containsStr_exists (s p : Str) (h : containsStr s p = true) :
    ∃ a b, s = a ++ (p ++ b) := by
  induction s with
  | nil =>
    cases p with
    | nil => exact ⟨[], [], rfl⟩
    | cons c ps => simp [containsStr, startsWithStr] at h
  | cons x xs ih =>
    simp only [containsStr, Bool.or_eq_true] at h
    cases h with
    | inl h1 =>
      obtain ⟨b, hb⟩ := startsWithStr_exists _ _ h1
      exact ⟨[], b, by simp [hb]⟩
    | inr h2 =>
      obtain ⟨a, b, hab⟩ := ih h2
      exact ⟨x :: a, b, by simp [hab]⟩

theorem containsStr_mono (t u pat : Str) (h : containsStr t pat = true) :
    containsStr (t ++ u) pat = true := by
  obtain ⟨a, b, rfl⟩ := containsStr_exists t pat h
  have e : a ++ (pat ++ b) ++ u = a ++ (pat ++ (b ++ u)) := by simp
  rw [e]
  exact containsStr_split _ _ _

theorem containsStr_mono_left (u t pat : Str) (h : containsStr t pat = true) :
    containsStr (u ++ t) pat = true := by
  obtain ⟨a, b, rfl⟩ := containsStr_exists t pat h
  have e : u ++ (a ++ (pat ++ b)) = (u ++ a) ++ (pat ++ b) := by simp
  rw [e]
  exact containsStr_split _ _ _

theorem dropWhile_append_keep (p b : Str) (c : Char) (ps : Str)
    (hp : p = c :: ps) (hc : pyIsSpace c = false) :
    ∀ a : Str, ∃ a2, List.dropWhile pyIsSpace (a ++ (p ++ b)) = a2 ++ (p ++ b) := by
  intro a
  induction a with
  | nil =>
    refine ⟨[], ?_⟩
    subst hp
    simp [List.dropWhile_cons, hc]
  | cons x xs ih =>
    by_cases hx : pyIsSpace x = true
    · obtain ⟨a2, h2⟩ := ih
      exact ⟨a2, by simp [List.cons_append, List.dropWhile_cons, hx, h2]⟩
    · exact ⟨x :: xs, by simp [List.cons_append, List.dropWhile_cons, hx]⟩

theorem containsStr_pyStrip (s p : Str) (hp : p ≠ [])
    (hws : ∀ c ∈ p, pyIsSpace c = false) (h : containsStr s p = true) :
    containsStr (pyStrip s) p = true := by
  obtain ⟨a, b, rfl⟩ := containsStr_exists s p h
  obtain ⟨c, ps, hcp⟩ : ∃ c ps, p = c :: ps := by
    cases p with
    | nil => exact absurd rfl hp
    | cons c ps => exact ⟨c, ps, rfl⟩
  have hc : pyIsSpace c = false := hws c (by simp [hcp])
  obtain ⟨a2, h1⟩ := dropWhile_append_keep p b c ps hcp hc a
  obtain ⟨d, qs, hrev⟩ : ∃ d qs, p.reverse = d :: qs := by
    cases hq : p.reverse with
    | nil => exact absurd (List.reverse_eq_nil_iff.mp hq) hp
    | cons d qs => exact ⟨d, qs, rfl⟩
  have hd : pyIsSpace d = false := by
    refine hws d ?_
    have hm : d ∈ p.reverse := by rw [hrev]; exact List.mem_cons_self d qs
    exact List.mem_reverse.mp hm
  obtain ⟨c2, h2⟩ := dropWhile_append_keep p.reverse a2.reverse d qs hrev hd b.reverse
  unfold pyStrip
  rw [h1]
  rw [show (a2 ++ (p ++ b)).reverse = b.reverse ++ (p.reverse ++ a2.reverse) by simp]
  rw [h2]
  rw [show (c2 ++ (p.reverse ++ a2.reverse)).reverse = a2 ++ (p ++ c2.reverse) by simp]
  exact containsStr_split _ _ _

theorem apply_recog_result_frame (r : Str) (s : App.SessionState) :
    (App.apply_recog_result r s).last_upload_name = s.last_upload_name ∧
    (App.apply_recog_result r s).recipe_output = s.recipe_output := by
  unfold App.apply_recog_result
  by_cases h1 : (!r.isEmpty && !startsWithStr r markerStr) = true
  · simp [h1]
  · by_cases h2 : startsWithStr r markerStr = true
    · simp [h1, h2]
    · have hm : startsWithStr ([] : Str) markerStr = false := by decide
      by_cases h3 : r = [] <;> simp [h1, h2, h3, hm]

theorem isEmpty_false_of_ne_nil {α : Type} (l : List α) (h : l ≠ []) : l.isEmpty = false := by
  cases l with
  | nil => exact absurd rfl h
  | cons x xs => rfl

/-! ### The claims -/

/-- C1: for every ingredients string that parses to the empty list and every
preference string, `generate_recipe_from_ai` on both surfaces returns the
fixed empty-input refusal message and sends no prompt on the network, so the
prompt builder is never reached on the network path. -/
theorem empty_ingredients_refusal_no_call (call1 call2 : Str → Except Str Str)
    (s p1 p2 : Str) (h : parseIngredients s = []) :
    App.generate_recipe_from_ai call1 s p1 = (App.emptyInputMsg, []) ∧
    Cli.generate_recipe_from_ai call2 s p2 = (Cli.emptyInputMsg, []) := by
  constructor <;>
    simp [App.generate_recipe_from_ai, Cli.generate_recipe_from_ai, h]

theorem empty_ingredients_refusal_no_call_witness :
    App.generate_recipe_from_ai (fun _ => Except.ok []) (strLit ",, ,") (strLit "low-carb")
      = (App.emptyInputMsg, []) ∧
    Cli.generate_recipe_from_ai (fun _ => Except.ok []) (strLit ",, ,") (strLit "low-carb")
      = (Cli.emptyInputMsg, []) :=
  empty_ingredients_refusal_no_call _ _ _ _ _ (by decide)

/-- C2 (counterexample): on the CLI surface a failed generation call yields a
string beginning with a newline, not with the failure marker "❌", so the
claim that both surfaces return a string that starts with the marker is
false. -/
theorem cli_error_not_marker_first :
    startsWithStr
      (Cli.generate_recipe_from_ai (fun _ => Except.error (strLit "boom"))
        (strLit "egg, tomato") (strLit "low-carb")).1 markerStr = false := by
  decide

/-- C2 (amended): when the outbound call raises, neither surface raises; each
returns its fixed error text followed by the error detail, a string that
contains the failure marker "❌" — app.py's generation and recognition errors
start with the marker, while main.py's generation error precedes it with a
newline. -/
theorem call_failure_marker_string (e s p : Str) (h : parseIngredients s ≠ []) :
    (App.generate_recipe_from_ai (fun _ => Except.error e) s p).1 = App.genErrorPre ++ e ∧
    startsWithStr (App.generate_recipe_from_ai (fun _ => Except.error e) s p).1 markerStr = true ∧
    (Cli.generate_recipe_from_ai (fun _ => Except.error e) s p).1 = Cli.genErrorPre ++ e ∧
    containsStr (Cli.generate_recipe_from_ai (fun _ => Except.error e) s p).1 markerStr = true ∧
    App.generate_ingredients_from_image (Except.error e) = App.recogErrorPre ++ e ∧
    startsWithStr (App.generate_ingredients_from_image (Except.error e)) markerStr = true := by
  have h' : (parseIngredients s).isEmpty = false := isEmpty_false_of_ne_nil _ h
  have ha : (App.generate_recipe_from_ai (fun _ => Except.error e) s p).1
      = App.genErrorPre ++ e := by
    simp [App.generate_recipe_from_ai, h']
  have hc : (Cli.generate_recipe_from_ai (fun _ => Except.error e) s p).1
      = Cli.genErrorPre ++ e := by
    simp [Cli.generate_recipe_from_ai, h']
  have hi : App.generate_ingredients_from_image (Except.error e)
      = App.recogErrorPre ++ e := rfl
  refine ⟨ha, ?_, hc, ?_, hi, ?_⟩
  · rw [ha]
    exact startsWithStr_mono _ _ _ (by decide)
  · rw [hc]
    exact containsStr_mono _ _ _ (by decide)
  · rw [hi]
    exact startsWithStr_mono _ _ _ (by decide)

theorem call_failure_marker_string_witness :
    (App.generate_recipe_from_ai (fun _ => Except.error (strLit "boom"))
        (strLit "egg") (strLit "p")).1 = App.genErrorPre ++ strLit "boom" ∧
    startsWithStr (App.generate_recipe_from_ai (fun _ => Except.error (strLit "boom"))
        (strLit "egg") (strLit "p")).1 markerStr = true ∧
    (Cli.generate_recipe_from_ai (fun _ => Except.error (strLit "boom"))
        (strLit "egg") (strLit "p")).1 = Cli.genErrorPre ++ strLit "boom" ∧
    containsStr (Cli.generate_recipe_from_ai (fun _ => Except.error (strLit "boom"))
        (strLit "egg") (strLit "p")).1 markerStr = true ∧
    App.generate_ingredients_from_image (Except.error (strLit "boom"))
      = App.recogErrorPre ++ strLit "boom" ∧
    startsWithStr (App.generate_ingredients_from_image (Except.error (strLit "boom")))
      markerStr = true :=
  call_failure_marker_string (strLit "boom") (strLit "egg") (strLit "p") (by decide)

/-- C3: in a web session the recognition call runs at most once per distinct
upload identifier: after any upload event the session records that event's
name; a second event with the same name is a pure no-op issuing zero calls,
so two same-name events issue at most one call in total — whatever the
recognition outcomes, including failures; and on a state that already
recorded the name, an upload event issues no call and changes nothing. -/
theorem upload_recognize_at_most_once (s : App.SessionState) (name : Str)
    (r1 r2 : Except Str Str) :
    (App.handle_upload r1 name s).1.last_upload_name = some name ∧
    App.handle_upload r2 name (App.handle_upload r1 name s).1
      = ((App.handle_upload r1 name s).1, 0) ∧
    (App.handle_upload r1 name s).2
      + (App.handle_upload r2 name (App.handle_upload r1 name s).1).2 ≤ 1 ∧
    App.handle_upload r1 name { s with last_upload_name := some name }
      = ({ s with last_upload_name := some name }, 0) := by
  have hfix : ∀ (r : Except Str Str) (u : App.SessionState),
      u.last_upload_name = some name → App.handle_upload r name u = (u, 0) := by
    intro r u hu
    simp [App.handle_upload, hu]
  have hset : (App.handle_upload r1 name s).1.last_upload_name = some name := by
    by_cases hs : s.last_upload_name = some name
    · simp [App.handle_upload, hs]
    · have hfr := (apply_recog_result_frame
        (App.generate_ingredients_from_image r1) { s with last_upload_name := some name }).1
      simp [App.handle_upload, hs, hfr]
  have hcount : (App.handle_upload r1 name s).2 ≤ 1 := by
    by_cases hs : s.last_upload_name = some name <;> simp [App.handle_upload, hs]
  have hsecond := hfix r2 _ hset
  refine ⟨hset, hsecond, ?_, hfix r1 _ (by simp)⟩
  rw [hsecond]
  simpa using hcount

/-- C4: how the web upload transition consumes a recognition result: a
non-empty result not starting with the failure marker replaces the
ingredient text; a marker-prefixed result leaves the ingredient text
unchanged; an empty result clears the ingredient text. -/
theorem upload_result_handling (r : Str) (s : App.SessionState) :
    (r.isEmpty = false → startsWithStr r markerStr = false →
      (App.apply_recog_result r s).ingredients_text = r) ∧
    (startsWithStr r markerStr = true →
      (App.apply_recog_result r s).ingredients_text = s.ingredients_text) ∧
    (r = [] → (App.apply_recog_result r s).ingredients_text = []) := by
  refine ⟨?_, ?_, ?_⟩
  · intro h1 h2
    simp [App.apply_recog_result, h1, h2]
  · intro h
    simp [App.apply_recog_result, h]
  · intro h
    have hm : startsWithStr ([] : Str) markerStr = false := by decide
    subst h
    simp [App.apply_recog_result, hm]

theorem upload_result_handling_witness :
    (App.apply_recog_result (strLit "雞蛋, 番茄") App.initialState).ingredients_text
      = strLit "雞蛋, 番茄" :=
  (upload_result_handling (strLit "雞蛋, 番茄") App.initialState).1 (by decide) (by decide)

/-- C5: a successful vision response whose text trims to empty, or whose text
contains the phrase "無法辨識", makes `generate_ingredients_from_image`
return the empty string; any other successful response yields the trimmed
response text. -/
theorem recognize_empty_or_unidentified (t : Str) :
    (pyStrip t = [] → App.generate_ingredients_from_image (Except.ok t) = []) ∧
    (containsStr t App.cannotIdentify = true →
      App.generate_ingredients_from_image (Except.ok t) = []) ∧
    (pyStrip t ≠ [] → containsStr (pyStrip t) App.cannotIdentify = false →
      App.generate_ingredients_from_image (Except.ok t) = pyStrip t) := by
  refine ⟨?_, ?_, ?_⟩
  · intro h
    simp [App.generate_ingredients_from_image, h]
  · intro h
    have hs : containsStr (pyStrip t) App.cannotIdentify = true :=
      containsStr_pyStrip t App.cannotIdentify (by decide) (by decide) h
    simp [App.generate_ingredients_from_image, hs]
  · intro h1 h2
    have h1' : (pyStrip t).isEmpty = false := isEmpty_false_of_ne_nil _ h1
    simp [App.generate_ingredients_from_image, h1', h2]

theorem recognize_empty_or_unidentified_witness :
    App.generate_ingredients_from_image (Except.ok (strLit "  ")) = [] ∧
    App.generate_ingredients_from_image (Except.ok (strLit "圖中無法辨識任何食材")) = [] ∧
    App.generate_ingredients_from_image (Except.ok (strLit " 雞蛋, 番茄 "))
      = pyStrip (strLit " 雞蛋, 番茄 ") :=
  ⟨(recognize_empty_or_unidentified (strLit "  ")).1 (by decide),
   (recognize_empty_or_unidentified (strLit "圖中無法辨識任何食材")).2.1 (by decide),
   (recognize_empty_or_unidentified (strLit " 雞蛋, 番茄 ")).2.2 (by decide) (by decide)⟩

/-- C6: for every non-empty ingredient list and every preference string, the
prompt built on either surface contains the ingredients joined with ", " as a
substring and contains the preference string verbatim as a substring. -/
theorem prompt_contains_ingredients_and_preference (ingredients : List Str)
    (preference : Str) (_h : ingredients ≠ []) :
    containsStr (App.create_recipe_prompt ingredients preference)
      (joinCommaSpace ingredients) = true ∧
    containsStr (App.create_recipe_prompt ingredients preference) preference = true ∧
    containsStr (Cli.create_recipe_prompt ingredients preference)
      (joinCommaSpace ingredients) = true ∧
    containsStr (Cli.create_recipe_prompt ingredients preference) preference = true := by
  have ea : App.create_recipe_prompt ingredients preference
      = App.promptPre ++ (joinCommaSpace ingredients
          ++ (App.promptMid ++ (preference ++ App.promptPost))) := by
    simp [App.create_recipe_prompt, List.append_assoc]
  have ec : Cli.create_recipe_prompt ingredients preference
      = Cli.promptPre ++ (joinCommaSpace ingredients
          ++ (Cli.promptMid ++ (preference ++ Cli.promptPost))) := by
    simp [Cli.create_recipe_prompt, List.append_assoc]
  rw [ea, ec]
  refine ⟨containsStr_split _ _ _, ?_, containsStr_split _ _ _, ?_⟩
  · exact containsStr_mono_left _ _ _ (containsStr_mono_left _ _ _
      (containsStr_split _ _ _))
  · exact containsStr_mono_left _ _ _ (containsStr_mono_left _ _ _
      (containsStr_split _ _ _))

theorem prompt_contains_ingredients_and_preference_witness :
    containsStr (App.create_recipe_prompt [strLit "egg", strLit "tomato"] (strLit "low-carb"))
      (joinCommaSpace [strLit "egg", strLit "tomato"]) = true ∧
    containsStr (App.create_recipe_prompt [strLit "egg", strLit "tomato"] (strLit "low-carb"))
      (strLit "low-carb") = true ∧
    containsStr (Cli.create_recipe_prompt [strLit "egg", strLit "tomato"] (strLit "low-carb"))
      (joinCommaSpace [strLit "egg", strLit "tomato"]) = true ∧
    containsStr (Cli.create_recipe_prompt [strLit "egg", strLit "tomato"] (strLit "low-carb"))
      (strLit "low-carb") = true :=
  prompt_contains_ingredients_and_preference [strLit "egg", strLit "tomato"]
    (strLit "low-carb") (by decide)

/-- C7: when the ingredients string parses to a non-empty list and the
outbound call succeeds with text `t`, `generate_recipe_from_ai` on both
surfaces returns exactly `t`, unmodified. -/
theorem generate_returns_response_verbatim (t s p : Str)
    (h : parseIngredients s ≠ []) :
    (App.generate_recipe_from_ai (fun _ => Except.ok t) s p).1 = t ∧
    (Cli.generate_recipe_from_ai (fun _ => Except.ok t) s p).1 = t := by
  have h' : (parseIngredients s).isEmpty = false := isEmpty_false_of_ne_nil _ h
  constructor <;>
    simp [App.generate_recipe_from_ai, Cli.generate_recipe_from_ai, h']

theorem generate_returns_response_verbatim_witness :
    (App.generate_recipe_from_ai (fun _ => Except.ok (strLit "MOCK RECIPE"))
        (strLit "egg, tomato") (strLit "low-carb")).1 = strLit "MOCK RECIPE" ∧
    (Cli.generate_recipe_from_ai (fun _ => Except.ok (strLit "MOCK RECIPE"))
        (strLit "egg, tomato") (strLit "low-carb")).1 = strLit "MOCK RECIPE" :=
  generate_returns_response_verbatim (strLit "MOCK RECIPE") (strLit "egg, tomato")
    (strLit "low-carb") (by decide)

/-- C8: `create_recipe_prompt` on each surface is a pure function of its two
arguments (the embedding has no other state): two calls with identical
inputs return identical output strings. -/
theorem create_recipe_prompt_deterministic (i1 i2 : List Str) (p1 p2 : Str)
    (hi : i1 = i2) (hp : p1 = p2) :
    App.create_recipe_prompt i1 p1 = App.create_recipe_prompt i2 p2 ∧
    Cli.create_recipe_prompt i1 p1 = Cli.create_recipe_prompt i2 p2 := by
  subst hi
  subst hp
  exact ⟨rfl, rfl⟩

theorem create_recipe_prompt_deterministic_witness :
    App.create_recipe_prompt [strLit "egg"] (strLit "vegan")
      = App.create_recipe_prompt [strLit "egg"] (strLit "vegan") ∧
    Cli.create_recipe_prompt [strLit "egg"] (strLit "vegan")
      = Cli.create_recipe_prompt [strLit "egg"] (strLit "vegan") :=
  create_recipe_prompt_deterministic [strLit "egg"] [strLit "egg"]
    (strLit "vegan") (strLit "vegan") rfl rfl

/-- C9: `generate_recipe_from_ai` depends on its ingredients argument only
through the parsed list: two raw strings with the same parse give, for every
preference and every provider behaviour, the same result and the same list
of prompts sent on the network, on both surfaces. -/
theorem generate_depends_only_on_parsed_list (call1 call2 : Str → Except Str Str)
    (s1 s2 p : Str) (h : parseIngredients s1 = parseIngredients s2) :
    App.generate_recipe_from_ai call1 s1 p = App.generate_recipe_from_ai call1 s2 p ∧
    Cli.generate_recipe_from_ai call2 s1 p = Cli.generate_recipe_from_ai call2 s2 p := by
  constructor
  · unfold App.generate_recipe_from_ai
    rw [h]
  · unfold Cli.generate_recipe_from_ai
    rw [h]

theorem generate_depends_only_on_parsed_list_witness :
    App.generate_recipe_from_ai (fun q => Except.ok q) (strLit " egg , tomato ,") (strLit "low-carb")
      = App.generate_recipe_from_ai (fun q => Except.ok q) (strLit "egg,tomato") (strLit "low-carb") ∧
    Cli.generate_recipe_from_ai (fun q => Except.ok q) (strLit " egg , tomato ,") (strLit "low-carb")
      = Cli.generate_recipe_from_ai (fun q => Except.ok q) (strLit "egg,tomato") (strLit "low-carb") :=
  generate_depends_only_on_parsed_list _ _ _ _ _ (by decide)

/-- C10: the web upload transition never modifies the stored recipe output,
whatever the recognition outcome; the generate-button handler is the writer:
it leaves the state unchanged on empty ingredient text, and on non-empty
ingredient text it stores the generation result in `recipe_output`. -/
theorem upload_preserves_recipe_output (recog : Except Str Str) (name : Str)
    (s : App.SessionState) (call : Str → Except Str Str) (preference : Str)
    (c : Char) (ti : Str) :
    (App.handle_upload recog name s).1.recipe_output = s.recipe_output ∧
    App.handle_generate call preference { s with ingredients_text := [] }
      = { s with ingredients_text := [] } ∧
    (App.handle_generate call preference { s with ingredients_text := c :: ti }).recipe_output
      = (App.generate_recipe_from_ai call (c :: ti) preference).1 := by
  refine ⟨?_, ?_, ?_⟩
  · by_cases hs : s.last_upload_name = some name
    · simp [App.handle_upload, hs]
    · have hfr := (apply_recog_result_frame
        (App.generate_ingredients_from_image recog) { s with last_upload_name := some name }).2
      simp [App.handle_upload, hs, hfr]
  · simp [App.handle_generate]
  · simp [App.handle_generate]
